import Mathlib

/-
Verification development for the modmail invite plugin
(src/invites/invites.py, class ModmailInvitePlugin).

Shallow embedding conventions:
- Time (`time.time()` / `datetime.utcnow()`) is an explicit `now : Int`
  parameter threaded through each operation.
- The plugin's mutable dictionaries (`invite_cache`, `rate_limits`, the
  persistence partition's documents) are association lists keyed by ids;
  `insertL`/`eraseL`/`lookupL` mirror Python dict assignment, `del`, and
  indexing.  `rate_limits` is a `defaultdict(float)`, so lookups default
  to `0`.
- The invite-creation network call (`channel.create_invite(...)`) is an
  oracle `net : InviteRequest → NetResult`; per the code's handlers it
  either yields a URL or fails with an HTTP status and an optional
  `retry_after` hint.
- Python config values are modelled by `ConfigValue`.  Python's `bool`
  is a subclass of `int`, so `isinstance(value, int)` accepts booleans;
  `asPyInt` reflects this.
-/

set_option autoImplicit false

namespace ModmailInvite

/-- A Python configuration value: an int, a bool, `None`, or any other
object (represented by a string tag). -/
inductive ConfigValue where
  | vint (n : Int)
  | vbool (b : Bool)
  | vnone
  | vstr (s : String)
  deriving DecidableEq, Repr

/-- Python `isinstance(value, int)`: true for ints and bools
(`bool` is a subclass of `int`). -/
def asPyInt : ConfigValue → Option Int
  | .vint n => some n
  | .vbool b => some (if b then 1 else 0)
  | _ => none

/-- Association-list lookup: first binding for the key, as in a Python
dict (which holds at most one binding per key). -/
def lookupL {α : Type} [DecidableEq α] {β : Type} : List (α × β) → α → Option β
  | [], _ => none
  | (k, v) :: rest, a => if k = a then some v else lookupL rest a

/-- Remove every binding for a key (`del d[k]`, a no-op when absent). -/
def eraseL {α : Type} [DecidableEq α] {β : Type} (l : List (α × β)) (a : α) :
    List (α × β) :=
  l.filter (fun p => decide (p.1 ≠ a))

/-- Dict assignment `d[k] = v`. -/
def insertL {α : Type} [DecidableEq α] {β : Type} (l : List (α × β)) (a : α) (b : β) :
    List (α × β) :=
  (a, b) :: eraseL l a

/-- Per-guild stored settings document (`{"settings": {...}}`). -/
abbrev Settings := List (String × ConfigValue)

/-- The persistence partition's config documents, keyed by guild id
(`config_<guildId>`). -/
abbrev Db := List (Nat × Settings)

/-- One entry of `self.invite_cache`: `{url, expires_at}`. -/
structure CacheEntry where
  url : String
  expires_at : Int
  deriving DecidableEq, Repr

/-- `self.invite_cache : guild_id -> {url, expires_at}`. -/
abbrev Cache := List (Nat × CacheEntry)

/-- The plugin's volatile per-guild state: `invite_cache` and
`rate_limits` (a `defaultdict(float)`). -/
structure CogState where
  invite_cache : Cache
  rate_limits : List (Nat × Int)
  deriving DecidableEq, Repr

/-- `self.defaults` from `__init__`. -/
def defaults : String → Option ConfigValue := fun k =>
  if k = "invite_duration" then some (.vint 86400)
  else if k = "invite_uses" then some (.vint 1)
  else if k = "auto_create" then some (.vbool true)
  else if k = "fallback_channel" then some .vnone
  else if k = "rate_limit_cooldown" then some (.vint 60)
  else if k = "temporary" then some (.vbool false)
  else if k = "cache_duration" then some (.vint 300)
  else none

/-- `get_config`: defaults merged with any stored overrides
(`merged = defaults.copy(); merged.update(config.get("settings", {}))`). -/
def get_config (db : Db) (g : Nat) : String → Option ConfigValue := fun k =>
  match lookupL db g with
  | none => defaults k
  | some st =>
    match lookupL st k with
    | some v => some v
    | none => defaults k

/-- `invite_duration` validation:
`not isinstance(value, int) or value < 60 or value > 604800`. -/
def durationBad (v : ConfigValue) : Bool :=
  match asPyInt v with
  | none => true
  | some n => decide (n < 60) || decide (604800 < n)

/-- `invite_uses` validation:
`not isinstance(value, int) or value < 1 or value > 100`. -/
def usesBad (v : ConfigValue) : Bool :=
  match asPyInt v with
  | none => true
  | some n => decide (n < 1) || decide (100 < n)

/-- `fallback_channel` validation:
`value is not None and not isinstance(value, int)`. -/
def fallbackBad (v : ConfigValue) : Bool :=
  match v with
  | .vnone => false
  | .vint _ => false
  | .vbool _ => false
  | .vstr _ => true

/-- `temporary` / `auto_create` validation: `not isinstance(value, bool)`. -/
def boolBad (v : ConfigValue) : Bool :=
  match v with
  | .vbool _ => false
  | _ => true

/-- The write at the end of `set_config`: upsert
`{"$set": {f"settings.{key}": value}}` on the guild's config document,
then clear the guild's invite-cache entry. -/
def configWrite (db : Db) (cache : Cache) (g : Nat) (key : String)
    (value : ConfigValue) : Option String × Db × Cache :=
  let st := (lookupL db g).getD []
  (none, insertL db g (insertL st key value), eraseL cache g)

/-- `set_config`: validate per key (raising `ValueError`, modelled as a
`some message` first component with the state unchanged), else write.
Only the five listed keys are validated; any other key falls through to
the write. -/
def set_config (db : Db) (cache : Cache) (g : Nat) (key : String)
    (value : ConfigValue) : Option String × Db × Cache :=
  if key = "invite_duration" then
    if durationBad value then
      (some "Duration must be between 60 and 604800 seconds (1 minute to 7 days)",
        db, cache)
    else configWrite db cache g key value
  else if key = "invite_uses" then
    if usesBad value then (some "Uses must be between 1 and 100", db, cache)
    else configWrite db cache g key value
  else if key = "fallback_channel" then
    if fallbackBad value then
      (some "Fallback channel must be a channel ID or None", db, cache)
    else configWrite db cache g key value
  else if key = "temporary" then
    if boolBad value then (some "Temporary must be True or False", db, cache)
    else configWrite db cache g key value
  else if key = "auto_create" then
    if boolBad value then (some "Auto create must be True or False", db, cache)
    else configWrite db cache g key value
  else configWrite db cache g key value

/-- `is_rate_limited`: `time.time() < self.rate_limits[guild_id]`, with
the `defaultdict(float)` defaulting a missing guild to `0`. -/
def is_rate_limited (s : CogState) (g : Nat) (now : Int) : Bool :=
  decide (now < (lookupL s.rate_limits g).getD 0)

/-- `set_rate_limit`: `self.rate_limits[guild_id] = time.time() + duration`. -/
def set_rate_limit (s : CogState) (g : Nat) (duration : Int) (now : Int) :
    CogState :=
  { s with rate_limits := insertL s.rate_limits g (now + duration) }

/-- `cache_invite`: store
`{url, expires_at: time.time() + min(duration, 300) - 30}`. -/
def cache_invite (s : CogState) (g : Nat) (url : String) (duration : Int)
    (now : Int) : CogState :=
  { s with invite_cache := insertL s.invite_cache g ⟨url, now + min duration 300 - 30⟩ }

/-- `get_cached_invite`: return the URL when `expires_at > now`; an
expired entry is deleted (lazy expiry); a missing entry returns `None`. -/
def get_cached_invite (s : CogState) (g : Nat) (now : Int) :
    Option String × CogState :=
  match lookupL s.invite_cache g with
  | some c =>
    if now < c.expires_at then (some c.url, s)
    else (none, { s with invite_cache := eraseL s.invite_cache g })
  | none => (none, s)

/-- A guild channel, as seen by the plugin: its id and whether
`channel.permissions_for(guild.me).create_instant_invite` holds. -/
structure GuildChannel where
  id : Nat
  canInvite : Bool
  deriving DecidableEq, Repr

/-- A guild: its id, whether the bot holds
`guild.me.guild_permissions.create_instant_invite` (checked by
`validate_permissions`), the channels visible to `guild.get_channel`,
and `guild.text_channels` in their natural order. -/
structure Guild where
  id : Nat
  botCanInvite : Bool
  channels : List GuildChannel
  text_channels : List GuildChannel
  deriving DecidableEq, Repr

/-- The parameters of one `create_invite` network call. -/
structure InviteRequest where
  channelId : Nat
  maxAge : Int
  maxUses : Int
  temporary : Bool
  deriving DecidableEq, Repr

/-- Outcome of the invite-creation network call: a URL, or an HTTP
failure carrying a status code and an optional `retry_after` hint. -/
inductive NetResult where
  | ok (url : String)
  | http (status : Nat) (retryAfter : Option Int)
  deriving DecidableEq, Repr

/-- The merged configuration fields read by the invite creator:
`config["invite_duration"]`, `config["invite_uses"]`,
`config.get("temporary", False)`, `config.get("fallback_channel")`. -/
structure Config where
  invite_duration : Int
  invite_uses : Int
  temporary : Bool
  fallback_channel : Option Nat
  deriving DecidableEq, Repr

/-- The primary attempt's request on the thread's channel:
`max_age=duration`, `max_uses=uses`, `temporary` flag. -/
def primaryRequest (threadChannelId : Nat) (config : Config) : InviteRequest :=
  ⟨threadChannelId, config.invite_duration, config.invite_uses, config.temporary⟩

/-- The configured-fallback tier of `try_fallback_channel`: if a fallback
channel id is configured, resolvable via `guild.get_channel`, and the bot
can invite there, attempt with the configured duration/uses/temporary;
on success cache and return; any HTTP failure falls through (`none`). -/
def configuredFallbackTier (s : CogState) (net : InviteRequest → NetResult)
    (guild : Guild) (config : Config) (now : Int) :
    Option (String × CogState) :=
  match config.fallback_channel with
  | some fid =>
    match guild.channels.find? (fun c => decide (c.id = fid)) with
    | some ch =>
      if ch.canInvite then
        match net ⟨ch.id, config.invite_duration, config.invite_uses, config.temporary⟩ with
        | .ok url => some (url, cache_invite s guild.id url config.invite_duration now)
        | .http _ _ => none
      else none
    | none => none
  | none => none

/-- One step of the emergency loop body: skip a channel without invite
capability; otherwise attempt `create_invite(max_age=3600, max_uses=1)`
(temporary left at its default `False`); an HTTP failure continues. -/
def emergencyAttempt (net : InviteRequest → NetResult) (ch : GuildChannel) :
    Option String :=
  if ch.canInvite then
    match net ⟨ch.id, 3600, 1, false⟩ with
    | .ok url => some url
    | .http _ _ => none
  else none

/-- The emergency loop over `guild.text_channels`: return the first
successful URL, else `None`. -/
def emergencyScan (net : InviteRequest → NetResult) :
    List GuildChannel → Option String
  | [] => none
  | ch :: rest =>
    match emergencyAttempt net ch with
    | some url => some url
    | none => emergencyScan net rest

/-- `try_fallback_channel`: configured fallback channel first, then the
emergency scan over the guild's text channels; `None` when no channel
yields an invite.  The emergency tier does not cache. -/
def try_fallback_channel (s : CogState) (net : InviteRequest → NetResult)
    (guild : Guild) (config : Config) (now : Int) : Option String × CogState :=
  match configuredFallbackTier s net guild config now with
  | some (url, s1) => (some url, s1)
  | none =>
    match emergencyScan net guild.text_channels with
    | some url => (some url, s)
    | none => (none, s)

/-- `create_thread_invite`: permission check, rate-limit check (serve
cache or refuse), primary attempt on the thread's channel (success
caches), 429 sets the rate limit (`retry_after` hint, default 60) and
serves the cache, 403 goes to the fallback routine, any other failure
returns `None`. -/
def create_thread_invite (s : CogState) (net : InviteRequest → NetResult)
    (guild : Guild) (threadChannelId : Nat) (config : Config) (now : Int) :
    Option String × CogState :=
  if guild.botCanInvite = false then (none, s)
  else if is_rate_limited s guild.id now then
    get_cached_invite s guild.id now
  else
    match net (primaryRequest threadChannelId config) with
    | .ok url => (some url, cache_invite s guild.id url config.invite_duration now)
    | .http 429 ra =>
      get_cached_invite (set_rate_limit s guild.id (ra.getD 60) now) guild.id now
    | .http 403 _ => try_fallback_channel s net guild config now
    | .http _ _ => (none, s)

/-- A persisted `thread_<threadId>` document:
`{invite_url, created_at, guild_id, thread_id}`. -/
structure ThreadRecord where
  thread_id : Nat
  guild_id : Nat
  invite_url : String
  created_at : Int
  deriving DecidableEq, Repr

/-- `cleanup_expired_data`: delete the thread documents whose
`created_at` is strictly before `now - 7 days`, and evict the cache
entries whose `expires_at <= now`. -/
def cleanup_expired_data (records : List ThreadRecord) (cache : Cache)
    (now : Int) : List ThreadRecord × Cache :=
  (records.filter (fun r => decide (¬ r.created_at < now - 7 * 86400)),
   cache.filter (fun p => decide (¬ p.2.expires_at ≤ now)))

theorem lookupL_insertL {α : Type} [DecidableEq α] {β : Type}
    (l : List (α × β)) (a : α) (b : β) : lookupL (insertL l a b) a = some b := by
  simp [insertL, lookupL]

theorem lookupL_eraseL {α : Type} [DecidableEq α] {β : Type}
    (l : List (α × β)) (a : α) : lookupL (eraseL l a) a = none := by
  induction l with
  | nil => rfl
  | cons p rest ih =>
    by_cases h : p.1 = a
    · simpa [eraseL, List.filter_cons, h] using ih
    · simpa [eraseL, List.filter_cons, h, lookupL] using ih

/-- C4: cache put at time `T` with configured duration `D` stores expiry
`T + min(D,300) - 30`; get returns the stored URL exactly when the stored
expiry is strictly greater than the current time, otherwise evicts the
entry (when present) and returns none; hence a value placed at `T` is
retrievable at `T + min(D,300) - 31` and not at `T + min(D,300) - 29`. -/
theorem cache_ttl_correct (s : CogState) (g : Nat) (url : String)
    (D T now : Int) :
    lookupL (cache_invite s g url D T).invite_cache g
      = some ⟨url, T + min D 300 - 30⟩ ∧
    (∀ c, lookupL s.invite_cache g = some c →
      (now < c.expires_at → get_cached_invite s g now = (some c.url, s)) ∧
      (¬ now < c.expires_at →
        get_cached_invite s g now
          = (none, { s with invite_cache := eraseL s.invite_cache g }))) ∧
    (lookupL s.invite_cache g = none → get_cached_invite s g now = (none, s)) ∧
    (get_cached_invite (cache_invite s g url D T) g (T + min D 300 - 31)).1
      = some url ∧
    (get_cached_invite (cache_invite s g url D T) g (T + min D 300 - 29)).1
      = none := by
  have hput : lookupL (cache_invite s g url D T).invite_cache g
      = some ⟨url, T + min D 300 - 30⟩ := lookupL_insertL _ _ _
  refine ⟨hput, ?_, ?_, ?_, ?_⟩
  · intro c hc
    constructor <;> intro h <;> simp [get_cached_invite, hc, h]
  · intro h
    simp [get_cached_invite, h]
  · have hlt : T + min D 300 - 31 < T + min D 300 - 30 := by omega
    simp [get_cached_invite, hput, hlt]
  · have hge : ¬ T + min D 300 - 29 < T + min D 300 - 30 := by omega
    simp [get_cached_invite, hput, hge]

theorem cache_ttl_correct_witness :
    lookupL (cache_invite ⟨[], []⟩ 1 "u" 86400 0).invite_cache 1
      = some ⟨"u", 0 + min 86400 300 - 30⟩ ∧
    get_cached_invite ⟨[(1, ⟨"u", 40⟩)], []⟩ 1 10 = (some "u", ⟨[(1, ⟨"u", 40⟩)], []⟩) ∧
    (get_cached_invite (cache_invite ⟨[], []⟩ 1 "u" 86400 0) 1 (0 + min 86400 300 - 31)).1
      = some "u" :=
  ⟨(cache_ttl_correct ⟨[], []⟩ 1 "u" 86400 0 0).1,
   (((cache_ttl_correct ⟨[(1, ⟨"u", 40⟩)], []⟩ 1 "u" 86400 0 10).2.1 ⟨"u", 40⟩ rfl).1
     (by decide)),
   (cache_ttl_correct ⟨[], []⟩ 1 "u" 86400 0 0).2.2.2.1⟩

/-- C5: when the bot lacks invite-creation capability on the guild, the
creator returns no invite, the state (cache and rate limits) is returned
unchanged, and no network request is consulted (the result does not
depend on `net`). -/
theorem no_permission_no_side_effects (s : CogState)
    (net : InviteRequest → NetResult) (guild : Guild) (tcid : Nat)
    (config : Config) (now : Int) (h : guild.botCanInvite = false) :
    create_thread_invite s net guild tcid config now = (none, s) := by
  simp [create_thread_invite, h]

theorem no_permission_no_side_effects_witness :
    create_thread_invite ⟨[(9, ⟨"c", 99⟩)], [(9, 7)]⟩ (fun _ => .ok "x")
      ⟨9, false, [], [⟨3, true⟩]⟩ 2 ⟨86400, 1, false, none⟩ 0
      = (none, ⟨[(9, ⟨"c", 99⟩)], [(9, 7)]⟩) :=
  no_permission_no_side_effects _ _ _ _ _ _ rfl

/-- C6: `is_rate_limited` is true exactly while the current time is
strictly below the stored cutoff; a guild with no stored cutoff is never
limited (for nonnegative clock values, as `time.time()` yields);
`set_rate_limit g d` at time `T` stores cutoff `T + d`; and after
`set_rate_limit g 60` at `T` the guild is limited at `T + 59` and not at
`T + 61`. -/
theorem rate_limiter_correct (s : CogState) (g : Nat) (now T d : Int)
    (hnow : 0 ≤ now) :
    (∀ c, lookupL s.rate_limits g = some c →
      (is_rate_limited s g now = true ↔ now < c)) ∧
    (lookupL s.rate_limits g = none → is_rate_limited s g now = false) ∧
    lookupL (set_rate_limit s g d T).rate_limits g = some (T + d) ∧
    is_rate_limited (set_rate_limit s g 60 T) g (T + 59) = true ∧
    is_rate_limited (set_rate_limit s g 60 T) g (T + 61) = false := by
  refine ⟨?_, ?_, lookupL_insertL _ _ _, ?_, ?_⟩
  · intro c hc
    simp [is_rate_limited, hc]
  · intro h
    simp [is_rate_limited, h]
    omega
  · simp [is_rate_limited, set_rate_limit, lookupL_insertL]
  · simp [is_rate_limited, set_rate_limit, lookupL_insertL]

theorem rate_limiter_correct_witness :
    is_rate_limited ⟨[], []⟩ 4 5 = false ∧
    lookupL (set_rate_limit ⟨[], []⟩ 4 60 0).rate_limits 4 = some (0 + 60) ∧
    is_rate_limited (set_rate_limit ⟨[], []⟩ 4 60 0) 4 (0 + 59) = true ∧
    is_rate_limited (set_rate_limit ⟨[], []⟩ 4 60 0) 4 (0 + 61) = false :=
  ⟨(rate_limiter_correct ⟨[], []⟩ 4 5 0 60 (by decide)).2.1 rfl,
   (rate_limiter_correct ⟨[], []⟩ 4 5 0 60 (by decide)).2.2.1,
   (rate_limiter_correct ⟨[], []⟩ 4 5 0 60 (by decide)).2.2.2.1,
   (rate_limiter_correct ⟨[], []⟩ 4 5 0 60 (by decide)).2.2.2.2⟩

/-- C1: (a) while the guild is rate-limited the creator returns exactly
the cache lookup (the cached URL when still valid, else no invite) and
never consults the network oracle; (b) when the primary attempt fails
with status 429 carrying hint `ra`, the creator sets the guild's cutoff
to `now + ra.getD 60` (default 60 when the hint is absent) and returns
the cache lookup against the updated state — the fallback routine is
never reached, since the result is determined by the primary request
alone. -/
theorem rate_limit_paths (s : CogState) (net : InviteRequest → NetResult)
    (guild : Guild) (tcid : Nat) (config : Config) (now : Int)
    (hperm : guild.botCanInvite = true) :
    (is_rate_limited s guild.id now = true →
      create_thread_invite s net guild tcid config now
        = get_cached_invite s guild.id now) ∧
    (∀ ra : Option Int, is_rate_limited s guild.id now = false →
      net (primaryRequest tcid config) = .http 429 ra →
      create_thread_invite s net guild tcid config now
        = get_cached_invite (set_rate_limit s guild.id (ra.getD 60) now)
            guild.id now ∧
      lookupL (set_rate_limit s guild.id (ra.getD 60) now).rate_limits guild.id
        = some (now + ra.getD 60)) := by
  constructor
  · intro h
    simp [create_thread_invite, hperm, h]
  · intro ra h h429
    refine ⟨?_, lookupL_insertL _ _ _⟩
    simp [create_thread_invite, hperm, h, h429]

theorem rate_limit_paths_witness :
    (create_thread_invite ⟨[], [(1, 100)]⟩ (fun _ => .ok "x")
        ⟨1, true, [], []⟩ 2 ⟨86400, 1, false, none⟩ 50
      = get_cached_invite ⟨[], [(1, 100)]⟩ 1 50) ∧
    (create_thread_invite ⟨[], []⟩ (fun _ => .http 429 (some 30))
        ⟨1, true, [], []⟩ 2 ⟨86400, 1, false, none⟩ 0
      = get_cached_invite
          (set_rate_limit ⟨[], []⟩ 1 ((some (30 : Int)).getD 60) 0) 1 0 ∧
      lookupL (set_rate_limit ⟨[], []⟩ 1 ((some (30 : Int)).getD 60) 0).rate_limits 1
        = some (0 + (some (30 : Int)).getD 60)) :=
  ⟨(rate_limit_paths ⟨[], [(1, 100)]⟩ (fun _ => .ok "x") ⟨1, true, [], []⟩ 2
      ⟨86400, 1, false, none⟩ 50 rfl).1 rfl,
   (rate_limit_paths ⟨[], []⟩ (fun _ => .http 429 (some 30)) ⟨1, true, [], []⟩ 2
      ⟨86400, 1, false, none⟩ 0 rfl).2 (some 30) rfl rfl⟩

theorem emergencyScan_eq_findSome (net : InviteRequest → NetResult)
    (l : List GuildChannel) :
    emergencyScan net l = l.findSome? (emergencyAttempt net) := by
  induction l with
  | nil => rfl
  | cons ch rest ih =>
    cases h : emergencyAttempt net ch <;>
      simp [emergencyScan, List.findSome?_cons, h, ih]

theorem emergencyScan_append_none (net : InviteRequest → NetResult)
    (pre l : List GuildChannel) (hpre : ∀ c ∈ pre, emergencyAttempt net c = none) :
    emergencyScan net (pre ++ l) = emergencyScan net l := by
  induction pre with
  | nil => rfl
  | cons c rest ih =>
    have hc : emergencyAttempt net c = none := hpre c (by simp)
    simp only [List.cons_append, emergencyScan, hc]
    exact ih (fun d hd => hpre d (by simp [hd]))

/-- C2: when the configured-fallback tier yields nothing, the fallback
routine returns exactly the first successful emergency attempt over the
guild's text channels in their natural order (with the fixed request
`max_age = 3600`, `max_uses = 1`, non-temporary, pinned inside
`emergencyAttempt`), leaving the state unchanged — in particular `none`
when no channel yields an invite; and when every channel before `ch`
lacks invite capability, `ch` has it, and the emergency request on `ch`
succeeds with `url`, the routine returns exactly that `url`. -/
theorem emergency_fallback_scan (s : CogState) (net : InviteRequest → NetResult)
    (guild : Guild) (config : Config) (now : Int)
    (hTier1 : configuredFallbackTier s net guild config now = none) :
    try_fallback_channel s net guild config now
      = (guild.text_channels.findSome? (emergencyAttempt net), s) ∧
    (∀ pre ch post, guild.text_channels = pre ++ ch :: post →
      (∀ c ∈ pre, c.canInvite = false) → ch.canInvite = true →
      ∀ url, net ⟨ch.id, 3600, 1, false⟩ = .ok url →
      try_fallback_channel s net guild config now = (some url, s)) := by
  have hbase : try_fallback_channel s net guild config now
      = (emergencyScan net guild.text_channels, s) := by
    cases h : emergencyScan net guild.text_channels <;>
      simp [try_fallback_channel, hTier1, h]
  constructor
  · rw [hbase, emergencyScan_eq_findSome]
  · intro pre ch post hsplit hpre hch url hok
    rw [hbase, hsplit]
    rw [emergencyScan_append_none net pre (ch :: post)
      (fun c hc => by simp [emergencyAttempt, hpre c hc])]
    simp [emergencyScan, emergencyAttempt, hch, hok]

theorem emergency_fallback_scan_witness :
    configuredFallbackTier ⟨[], []⟩
        (fun r => if r.channelId = 2 then .ok "u" else .http 403 none)
        ⟨1, true, [], [⟨1, false⟩, ⟨2, true⟩]⟩ ⟨86400, 1, false, none⟩ 0 = none ∧
    try_fallback_channel ⟨[], []⟩
        (fun r => if r.channelId = 2 then .ok "u" else .http 403 none)
        ⟨1, true, [], [⟨1, false⟩, ⟨2, true⟩]⟩ ⟨86400, 1, false, none⟩ 0
      = (some "u", ⟨[], []⟩) :=
  ⟨rfl,
   (emergency_fallback_scan ⟨[], []⟩
      (fun r => if r.channelId = 2 then .ok "u" else .http 403 none)
      ⟨1, true, [], [⟨1, false⟩, ⟨2, true⟩]⟩ ⟨86400, 1, false, none⟩ 0 rfl).2
     [⟨1, false⟩] ⟨2, true⟩ [] rfl
     (fun c hc => by rcases List.mem_singleton.mp hc with rfl; rfl)
     rfl "u" rfl⟩

/-- C3 counterexample: a call that succeeds via the emergency fallback
(primary attempt fails with 403, no configured fallback, the guild's
single text channel yields the URL) returns that URL while the guild's
cache entry afterwards is absent — so not every success caches. -/
theorem success_not_cached_counterexample :
    (create_thread_invite ⟨[], []⟩
        (fun r => if r.maxAge = 3600 then .ok "emergency" else .http 403 none)
        ⟨1, true, [], [⟨5, true⟩]⟩ 7 ⟨86400, 1, false, none⟩ 0).1
      = some "emergency" ∧
    lookupL (create_thread_invite ⟨[], []⟩
        (fun r => if r.maxAge = 3600 then .ok "emergency" else .http 403 none)
        ⟨1, true, [], [⟨5, true⟩]⟩ 7 ⟨86400, 1, false, none⟩ 0).2.invite_cache 1
      = none :=
  ⟨rfl, rfl⟩

/-- C3 (amended): a success via the primary channel or via the
configured fallback channel caches the URL (with expiry
`now + min(duration,300) - 30`); a success via the emergency fallback
does not cache — the whole volatile state is returned unchanged on that
path. -/
theorem success_caching_amended (s : CogState)
    (net : InviteRequest → NetResult) (guild : Guild) (tcid : Nat)
    (config : Config) (now : Int) (hperm : guild.botCanInvite = true)
    (hrl : is_rate_limited s guild.id now = false) :
    (∀ url, net (primaryRequest tcid config) = .ok url →
      (create_thread_invite s net guild tcid config now).1 = some url ∧
      lookupL (create_thread_invite s net guild tcid config now).2.invite_cache
          guild.id
        = some ⟨url, now + min config.invite_duration 300 - 30⟩) ∧
    (∀ url s1, configuredFallbackTier s net guild config now = some (url, s1) →
      lookupL s1.invite_cache guild.id
        = some ⟨url, now + min config.invite_duration 300 - 30⟩) ∧
    (∀ ra, net (primaryRequest tcid config) = .http 403 ra →
      configuredFallbackTier s net guild config now = none →
      (create_thread_invite s net guild tcid config now).2 = s) := by
  refine ⟨?_, ?_, ?_⟩
  · intro url hok
    constructor <;>
      simp [create_thread_invite, hperm, hrl, hok, cache_invite, lookupL_insertL]
  · intro url s1 h
    unfold configuredFallbackTier at h
    split at h
    · split at h
      · split at h
        · split at h
          · rename_i url2
            obtain ⟨h1, h2⟩ := Prod.ext_iff.mp (Option.some_inj.mp h)
            subst h1
            subst h2
            simp [cache_invite, lookupL_insertL]
          · exact absurd h (by simp)
        · exact absurd h (by simp)
      · exact absurd h (by simp)
    · exact absurd h (by simp)
  · intro ra h403 hTier1
    have : create_thread_invite s net guild tcid config now
        = try_fallback_channel s net guild config now := by
      simp [create_thread_invite, hperm, hrl, h403]
    rw [this]
    cases h : emergencyScan net guild.text_channels <;>
      simp [try_fallback_channel, hTier1, h]

theorem success_caching_amended_witness :
    (create_thread_invite ⟨[], []⟩ (fun _ => .ok "u") ⟨1, true, [], []⟩ 2
        ⟨86400, 1, false, none⟩ 0).1 = some "u" ∧
    lookupL (create_thread_invite ⟨[], []⟩ (fun _ => .ok "u") ⟨1, true, [], []⟩ 2
        ⟨86400, 1, false, none⟩ 0).2.invite_cache 1
      = some ⟨"u", 0 + min (86400 : Int) 300 - 30⟩ :=
  (success_caching_amended ⟨[], []⟩ (fun _ => .ok "u") ⟨1, true, [], []⟩ 2
    ⟨86400, 1, false, none⟩ 0 rfl rfl).1 "u" rfl

theorem set_config_ok_eq_write (db : Db) (cache : Cache) (g : Nat)
    (key : String) (value : ConfigValue)
    (hok : (set_config db cache g key value).1 = none) :
    set_config db cache g key value = configWrite db cache g key value := by
  unfold set_config at hok ⊢
  split_ifs at hok ⊢ <;> rfl

theorem get_config_configWrite (db : Db) (cache : Cache) (g : Nat)
    (key : String) (value : ConfigValue) :
    get_config (configWrite db cache g key value).2.1 g key = some value := by
  simp [get_config, configWrite, lookupL_insertL]

/-- C7: an out-of-range `invite_duration` (below 60 or above 604800) or
`invite_uses` (below 1 or above 100) makes `set_config` raise its
validation error and return the stored configuration and cache
unchanged: no write occurs on the error path. -/
theorem config_validation_rejects (db : Db) (cache : Cache) (g : Nat) :
    (∀ n : Int, n < 60 ∨ 604800 < n →
      set_config db cache g "invite_duration" (.vint n)
        = (some "Duration must be between 60 and 604800 seconds (1 minute to 7 days)",
            db, cache)) ∧
    (∀ n : Int, n < 1 ∨ 100 < n →
      set_config db cache g "invite_uses" (.vint n)
        = (some "Uses must be between 1 and 100", db, cache)) := by
  constructor <;> intro n h <;> rcases h with h | h <;>
    simp [set_config, durationBad, usesBad, asPyInt, h]

theorem config_validation_rejects_witness :
    set_config [] [] 3 "invite_duration" (.vint 30)
      = (some "Duration must be between 60 and 604800 seconds (1 minute to 7 days)",
          [], []) ∧
    set_config [] [] 3 "invite_uses" (.vint 150)
      = (some "Uses must be between 1 and 100", [], []) :=
  ⟨(config_validation_rejects [] [] 3).1 30 (Or.inl (by decide)),
   (config_validation_rejects [] [] 3).2 150 (Or.inr (by decide))⟩

/-- C8: after any successful `set_config` (no validation error raised),
`get_config` on the resulting store returns the new value for the
updated key, and the guild's invite-cache entry has been removed. -/
theorem config_set_then_get (db : Db) (cache : Cache) (g : Nat)
    (key : String) (value : ConfigValue)
    (hok : (set_config db cache g key value).1 = none) :
    get_config (set_config db cache g key value).2.1 g key = some value ∧
    lookupL (set_config db cache g key value).2.2 g = none := by
  rw [set_config_ok_eq_write db cache g key value hok]
  exact ⟨get_config_configWrite db cache g key value,
    by simpa [configWrite] using lookupL_eraseL cache g⟩

theorem config_set_then_get_witness :
    get_config (set_config [] [(3, ⟨"u", 99⟩)] 3 "invite_duration" (.vint 120)).2.1
        3 "invite_duration" = some (.vint 120) ∧
    lookupL (set_config [] [(3, ⟨"u", 99⟩)] 3 "invite_duration" (.vint 120)).2.2 3
      = none :=
  config_set_then_get [] [(3, ⟨"u", 99⟩)] 3 "invite_duration" (.vint 120) rfl

/-- C10: a `set_config` on any key other than the five validated ones
(`invite_duration`, `invite_uses`, `fallback_channel`, `temporary`,
`auto_create`) — in particular `rate_limit_cooldown` and
`cache_duration` — never raises a validation error, whatever the value,
and persists the value unchanged. -/
theorem unvalidated_keys_accepted (db : Db) (cache : Cache) (g : Nat)
    (key : String) (value : ConfigValue)
    (h1 : key ≠ "invite_duration") (h2 : key ≠ "invite_uses")
    (h3 : key ≠ "fallback_channel") (h4 : key ≠ "temporary")
    (h5 : key ≠ "auto_create") :
    (set_config db cache g key value).1 = none ∧
    get_config (set_config db cache g key value).2.1 g key = some value := by
  have hw : set_config db cache g key value = configWrite db cache g key value := by
    simp [set_config, h1, h2, h3, h4, h5]
  rw [hw]
  exact ⟨rfl, get_config_configWrite db cache g key value⟩

theorem unvalidated_keys_accepted_witness :
    (set_config [] [] 3 "rate_limit_cooldown" (.vstr "whatever")).1 = none ∧
    get_config (set_config [] [] 3 "rate_limit_cooldown" (.vstr "whatever")).2.1
        3 "rate_limit_cooldown" = some (.vstr "whatever") :=
  unvalidated_keys_accepted [] [] 3 "rate_limit_cooldown" (.vstr "whatever")
    (by decide) (by decide) (by decide) (by decide) (by decide)

/-- C9: one sweeper cycle keeps exactly the thread records not older
than 7 days (so it deletes exactly those with `created_at` strictly
before `now - 7 days`) and keeps exactly the cache entries whose expiry
is still in the future (so it evicts exactly those with
`expires_at <= now`); survivors are an untouched subsequence of the
originals. -/
theorem sweeper_exact (records : List ThreadRecord) (cache : Cache)
    (now : Int) :
    (∀ r : ThreadRecord, r ∈ (cleanup_expired_data records cache now).1 ↔
      r ∈ records ∧ ¬ r.created_at < now - 7 * 86400) ∧
    (∀ e : Nat × CacheEntry, e ∈ (cleanup_expired_data records cache now).2 ↔
      e ∈ cache ∧ ¬ e.2.expires_at ≤ now) ∧
    List.Sublist (cleanup_expired_data records cache now).1 records ∧
    List.Sublist (cleanup_expired_data records cache now).2 cache := by
  refine ⟨?_, ?_, List.filter_sublist records, List.filter_sublist cache⟩ <;>
    intro x <;> simp [cleanup_expired_data, List.mem_filter]

theorem sweeper_exact_witness :
    (⟨1, 1, "u", 0⟩ : ThreadRecord)
      ∈ (cleanup_expired_data [⟨1, 1, "u", 0⟩] [(1, ⟨"u", 50⟩)] 100).1 ∧
    ¬ ((1, ⟨"u", 50⟩) : Nat × CacheEntry)
      ∈ (cleanup_expired_data [⟨1, 1, "u", 0⟩] [(1, ⟨"u", 50⟩)] 100).2 :=
  ⟨((sweeper_exact [⟨1, 1, "u", 0⟩] [(1, ⟨"u", 50⟩)] 100).1 ⟨1, 1, "u", 0⟩).mpr
      ⟨by decide, by decide⟩,
   fun hmem => absurd
     (((sweeper_exact [⟨1, 1, "u", 0⟩] [(1, ⟨"u", 50⟩)] 100).2.1
        (1, ⟨"u", 50⟩)).mp hmem).2
     (by decide)⟩

end ModmailInvite
